import Mathlib

/-!
Verification development for `native_api_simple.py`, a command-line client for
the Catalyst Center REST API.  The Python source is shallowly embedded below:
pure helpers become Lean functions, HTTP interactions become explicit
parameters (response streams, server pool/site lists, call outcomes), and each
function's control flow is translated branch by branch from the source.
-/

/- ------------------------------------------------------------------ -/
/- Python string primitives, modelled over the character list of a
   `String` so that everything reduces in the kernel.                  -/
/- ------------------------------------------------------------------ -/

/-- Python `s.split(c)` for a single-character separator: splits on every
occurrence, keeping empty parts (`"".split('/') == ['']`). -/
def pySplit (s : String) (c : Char) : List String :=
  (s.data.splitOn c).map String.mk

/-- Python `c in s` membership test for a single character. -/
def pyContains (s : String) (c : Char) : Bool :=
  s.data.contains c

/-- Decimal digit value of a character, if it is a digit. -/
def charToDigit? (c : Char) : Option Nat :=
  if c.isDigit then some (c.toNat - '0'.toNat) else none

/-- Python `int(s)` restricted to non-negative decimals: `none` models the
`ValueError` raised on a non-numeric string. -/
def pyToNat (s : String) : Option Nat :=
  s.data.foldl (fun acc c => acc.bind fun n => (charToDigit? c).map fun d => n * 10 + d)
    (if s.data.isEmpty then none else some 0)

/-- Python `s.rsplit(c, 1)[0]`: everything before the last occurrence of `c`,
or `s` itself when `c` does not occur. -/
def pyRSplitHead (s : String) (c : Char) : String :=
  let parts := s.data.splitOn c
  if parts.length ≤ 1 then s else String.mk (List.intercalate [c] parts.dropLast)

/- ------------------------------------------------------------------ -/
/- Task poller: `CatalystCenterAPI.wait_for_task` (source lines 87-182) -/
/- ------------------------------------------------------------------ -/

/-- A JSON value observed at `bapiSyncResponseJson['status']`: the Python code
compares it against the string `'false'` and the boolean `False`. -/
inductive SyncStatusVal
  | jstr (s : String)
  | jbool (b : Bool)
  | jabsent
  | jother
deriving DecidableEq

/-- The `bapiSyncResponseJson` field of a task response.
`task_data.get('bapiSyncResponseJson', {})` defaults to an empty dict, and the
code guards with `isinstance(sync_response, dict)`. -/
inductive SyncField
  | absent
  | notDict
  | dict (status : SyncStatusVal)
deriving DecidableEq

/-- The fields of a 200-status task response that `wait_for_task` inspects.
`status` models `task_data.get('status', '')`; `bapiError` models the optional
`bapiError` field (Python truthiness distinguishes `None`/`''` from a
non-empty string); `isError` is the truthiness of `task_data.get('isError')`;
`endTimePresent` is the truthiness of `endTime or endTimeEpoch`. -/
structure TaskData where
  status : String := ""
  bapiError : Option String := none
  bapiSyncResponseJson : SyncField := .absent
  isError : Bool := false
  endTimePresent : Bool := false
deriving DecidableEq

/-- Python truthiness of an optional string field. -/
def optStrTruthy : Option String → Bool
  | none => false
  | some s => !s.data.isEmpty

/-- The source test `sync_response.get('status') == 'false' or
sync_response.get('status') == False` (lines 130-133), including the
`isinstance(sync_response, dict)` guard. -/
def syncStatusIsFalse : SyncField → Bool
  | .dict (.jstr s) => s == "false"
  | .dict (.jbool b) => b == false
  | _ => false

/-- One HTTP poll of the task-status endpoint, as the loop body sees it:
a 404, a 200 with a JSON body, any other status code, or a
timeout/connection/other exception. -/
inductive PollResponse
  | notFound
  | ok (td : TaskData)
  | otherStatus (code : Nat)
  | netError
deriving DecidableEq

/-- Outcome of inspecting one 200-status task response (source lines 115-162):
`some b` means `wait_for_task` returns `b` from this iteration, `none` means
the task is still in progress and the loop sleeps and retries. -/
def evalOk (td : TaskData) : Option Bool :=
  if td.status == "SUCCESS" then
    if optStrTruthy td.bapiError then some false
    else if syncStatusIsFalse td.bapiSyncResponseJson then some false
    else some true
  else if td.status == "FAILURE" || td.status == "FAILED" then some false
  else if td.isError then some false
  else if td.endTimePresent then
    if td.status == "SUCCESS" || !td.isError then some true else some false
  else none

/-- Outcome of one iteration of the polling loop (source lines 106-177):
404 returns `true`; 200 is inspected via `evalOk`; any other status code and
any request exception are transient (sleep and retry). -/
def evalPoll : PollResponse → Option Bool
  | .notFound => some true
  | .ok td => evalOk td
  | .otherStatus _ => none
  | .netError => none

/-- The fixed poll interval of `wait_for_task` (`check_interval = 10`). -/
def checkInterval : Nat := 10

/-- The polling loop of `wait_for_task`, under the idealisation that each HTTP
request takes negligible time: `elapsed` is the wall-clock offset at the top
of the iteration, `k` counts polls performed so far, and `resp j` is the
response observed by poll number `j`.  Returns the boolean outcome and the
total number of polls performed.  The `else` branch is the timeout path
(source lines 179-182), which returns `True`. -/
def waitFrom (resp : Nat → PollResponse) (timeout elapsed k : Nat) : Bool × Nat :=
  if elapsed < timeout then
    match evalPoll (resp k) with
    | some b => (b, k + 1)
    | none => waitFrom resp timeout (elapsed + checkInterval) (k + 1)
  else (true, k)
termination_by timeout - elapsed
decreasing_by simp only [checkInterval]; omega

/-- `wait_for_task` itself: start at elapsed time 0 with no polls performed. -/
def waitForTask (resp : Nat → PollResponse) (timeout : Nat) : Bool × Nat :=
  waitFrom resp timeout 0 0

/- ------------------------------------------------------------------ -/
/- Payload construction: `create_ip_pool` (lines 262-335) and
   `reserve_ip_subpool` (lines 472-542)                                -/
/- ------------------------------------------------------------------ -/

/-- The JSON payload posted to `/dna/intent/api/v1/global-pool`
(source lines 275-282), with `addressSpace` flattened into two fields. -/
structure PoolPayload where
  name : String
  poolType : String
  subnet : String
  prefixLength : Nat
deriving DecidableEq

/-- Lines 271-282: `subnet, prefix = cidr.split('/')` followed by the payload
dict.  `none` models the `ValueError` when the CIDR does not split into
exactly two parts or the prefix is not a number. -/
def buildPoolPayload (name cidr : String) : Option PoolPayload :=
  match pySplit cidr '/' with
  | [subnet, pfx] =>
    (pyToNat pfx).map fun n =>
      { name := name, poolType := "Generic", subnet := subnet, prefixLength := n }
  | _ => none

/-- Line 487: `gateway = f"{subnet.rsplit('.', 1)[0]}.1"`. -/
def gatewayOf (subnet : String) : String :=
  pyRSplitHead subnet '.' ++ ".1"

/-- The JSON payload posted to `/dna/intent/api/v1/reserve-ip-subpool/(siteId)`
(source lines 498-506). -/
structure ReservePayload where
  name : String
  rtype : String
  ipv4GlobalPool : String
  ipv4Prefix : Bool
  ipv4PrefixLength : Nat
  ipv4Subnet : String
  ipv4GateWay : String
deriving DecidableEq

/-- Lines 487-506 of `reserve_ip_subpool`: builds the reservation payload from
the reservation name, the parent pool's CIDR, the subnet and prefix length. -/
def buildReservePayload (reservationName parentCidr subnet : String)
    (prefixLength : Nat) : ReservePayload :=
  { name := reservationName
    rtype := "Generic"
    ipv4GlobalPool := parentCidr
    ipv4Prefix := true
    ipv4PrefixLength := prefixLength
    ipv4Subnet := subnet
    ipv4GateWay := gatewayOf subnet }

/- ------------------------------------------------------------------ -/
/- Pools: `get_global_pool_by_name` (lines 228-236) and the request
   trace of `create_ip_pool` (lines 262-335)                           -/
/- ------------------------------------------------------------------ -/

/-- A global pool as listed by `/dna/intent/api/v1/global-pool`; only the
fields the client reads. -/
structure Pool where
  ipPoolName : String
  ipPoolCidr : String
deriving DecidableEq

/-- Lines 228-236: linear search of the listed pools by `ipPoolName`. -/
def getGlobalPoolByName (pools : List Pool) (name : String) : Option Pool :=
  pools.find? (fun p => p.ipPoolName == name)

/-- The kinds of controller interactions `create_ip_pool` performs, tagged by
call site: the initial existence lookup (line 265), the creation POST
(line 285), the `wait_for_task` polling (line 296), the post-creation
verification lookup (line 303), and the one-shot status-URL check of the
legacy fallback (line 321, which may be followed by the lookup of
line 327). -/
inductive ReqKind
  | existsCheck
  | postCreate (name cidr : String)
  | taskWait
  | confirmCheck
  | statusUrlCheck
deriving DecidableEq

/-- The JSON body of the creation POST response, as read by lines 291-292. -/
structure CreateResp where
  executionId : Option String
  executionStatusUrl : Option String
deriving DecidableEq

/-- The environment of one `create_ip_pool` call: the server's pool list at
the initial lookup, the POST response, the outcome of `wait_for_task`
(resp. of the legacy one-shot status check), and the server's pool list at
the verification lookup. -/
structure PoolEnv where
  pools : List Pool
  createResp : CreateResp
  taskOk : Bool
  statusOk : Bool
  poolsAfter : List Pool

/-- Return value of `create_ip_pool`: an existing/verified pool object, the
raw creation-response dict (line 335), or `None`. -/
inductive PoolResult
  | pool (p : Pool)
  | raw
  | failed
deriving DecidableEq

/-- Lines 262-335 of `create_ip_pool`, branch by branch, returning the result
together with the list of controller interactions performed.  If the pool
already exists the call returns it after the lookup alone; otherwise it POSTs,
and when the response carries an `executionId` it awaits the task and, on task
success, re-queries the pool list to verify materialisation. -/
def createIpPool (env : PoolEnv) (name cidr : String) : PoolResult × List ReqKind :=
  match getGlobalPoolByName env.pools name with
  | some existing => (.pool existing, [.existsCheck])
  | none =>
    match env.createResp.executionId with
    | some _ =>
      if env.taskOk then
        match getGlobalPoolByName env.poolsAfter name with
        | some created =>
            (.pool created, [.existsCheck, .postCreate name cidr, .taskWait, .confirmCheck])
        | none =>
            (.failed, [.existsCheck, .postCreate name cidr, .taskWait, .confirmCheck])
      else (.failed, [.existsCheck, .postCreate name cidr, .taskWait])
    | none =>
      match env.createResp.executionStatusUrl with
      | some _ =>
        if env.statusOk then
          (match getGlobalPoolByName env.poolsAfter name with
            | some p => .pool p
            | none => .failed,
           [.existsCheck, .postCreate name cidr, .statusUrlCheck, .confirmCheck])
        else (.failed, [.existsCheck, .postCreate name cidr, .statusUrlCheck])
      | none => (.raw, [.existsCheck, .postCreate name cidr])

/- ------------------------------------------------------------------ -/
/- Sites: `get_site_by_name_and_parent` (lines 209-226) and the
   skip-if-exists branch of `create_floor` (lines 421-427)             -/
/- ------------------------------------------------------------------ -/

/-- A site as listed by `/dna/intent/api/v1/site`; only the fields the
parent-aware lookup reads. -/
structure Site where
  name : String
  siteNameHierarchy : String
deriving DecidableEq

/-- Lines 218-223: split the hierarchy on `/` and take the second-to-last
segment (`parts[-2]`), guarded by `len(parts) >= 2`. -/
def directParent (hierarchy : String) : Option String :=
  let parts := pySplit hierarchy '/'
  if 2 ≤ parts.length then parts.get? (parts.length - 2) else none

/-- Lines 209-226: first listed site whose `name` matches and whose
hierarchy's second-to-last segment equals `parent_name`. -/
def getSiteByNameAndParent (sites : List Site) (siteName parentName : String) : Option Site :=
  sites.find? (fun s => s.name == siteName && directParent s.siteNameHierarchy == some parentName)

/-- What `create_floor` decides after its parent-aware lookup (lines 425-428):
skip and return the existing floor, or proceed to the creation POST. -/
inductive FloorAction
  | skipExisting (s : Site)
  | createRequest
deriving DecidableEq

/-- Lines 421-430 of `create_floor` up to the POST: the skip-if-exists
decision driven by `get_site_by_name_and_parent`. -/
def createFloorAction (sites : List Site) (name parentName : String) : FloorAction :=
  match getSiteByNameAndParent sites name parentName with
  | some existing => .skipExisting existing
  | none => .createRequest

/-- The six `create_floor` calls of `create_infrastructure`
(source lines 770-775): floor name, `parent_name` (a full hierarchy path),
and floor number. -/
def floorCalls : List (String × String × Nat) :=
  [("FLOOR_1", "Global/United States/Golden Hills Campus/Sunset Tower", 1),
   ("FLOOR_2", "Global/United States/Golden Hills Campus/Sunset Tower", 2),
   ("FLOOR_1", "Global/United States/Lakefront Tower/Windy City Plaza", 1),
   ("FLOOR_2", "Global/United States/Lakefront Tower/Windy City Plaza", 2),
   ("FLOOR_1", "Global/United States/Oceanfront Mansion/Art Deco Mansion", 1),
   ("FLOOR_1", "Global/United States/Desert Oasis Branch/Desert Oasis Tower", 1)]

/- ------------------------------------------------------------------ -/
/- Teardown: the operation sequence of `delete_infrastructure`
   (source lines 855-936)                                              -/
/- ------------------------------------------------------------------ -/

/-- One controller-mutating call attempted by the teardown script, tagged by
the phase it belongs to (`delete_reservation` calls, then `delete_site` calls
on floors, buildings and areas). -/
inductive DelOp
  | delReservation (building reservation : String)
  | delFloor (name : String)
  | delBuilding (name : String)
  | delArea (name : String)
deriving DecidableEq

/-- Lines 860-865: the reservation names to delete, per building. -/
def reservationsByBuilding : List (String × List String) :=
  [("Sunset Tower", ["ST_CORP", "ST_TECH", "ST_GUEST", "ST_BYOD"]),
   ("Windy City Plaza", ["WCP_CORP", "WCP_TECH", "WCP_GUEST", "WCP_BYOD"]),
   ("Art Deco Mansion", ["ADM_CORP", "ADM_TECH", "ADM_GUEST", "ADM_BYOD"]),
   ("Desert Oasis Tower", ["DOT_CORP", "DOT_TECH", "DOT_GUEST", "DOT_BYOD"])]

/-- Lines 867-870: every reservation deletion, in script order. -/
def reservationOps : List DelOp :=
  (reservationsByBuilding.map (fun br => br.2.map (DelOp.delReservation br.1))).flatten

/-- Line 884-887: the floor names the deletion loop cycles through. -/
def floorNames : List String := ["FLOOR_1", "FLOOR_2"]

/-- The inner `for floor_name in floors` loop (lines 891-897): `oracle k`
tells whether the k-th `delete_site` call of the floor phase returned a
result (`true`) or returned `None`/raised (`false`, which `break`s the inner
loop after the call was already made). -/
def floorInner (oracle : Nat → Bool) : List String → Nat → List DelOp × Nat
  | [], k => ([], k)
  | f :: rest, k =>
    if oracle k then
      let r := floorInner oracle rest (k + 1)
      (DelOp.delFloor f :: r.1, r.2)
    else ([DelOp.delFloor f], k + 1)

/-- The outer `for _ in range(6)` loop (line 890). -/
def floorOuter (oracle : Nat → Bool) : Nat → Nat → List DelOp
  | 0, _ => []
  | n + 1, k =>
    let r := floorInner oracle floorNames k
    r.1 ++ floorOuter oracle n r.2

/-- All `delete_site` calls of the floor phase, in order. -/
def floorOps (oracle : Nat → Bool) : List DelOp :=
  floorOuter oracle 6 0

/-- Lines 908-916: the building deletions, in script order. -/
def buildingOps : List DelOp :=
  (["Sunset Tower", "Windy City Plaza", "Art Deco Mansion", "Desert Oasis Tower"]).map
    DelOp.delBuilding

/-- Lines 927-936: the area deletions; the parent area `United States` is
listed last, after the four leaf areas. -/
def areaOps : List DelOp :=
  (["Golden Hills Campus", "Lakefront Tower", "Oceanfront Mansion", "Desert Oasis Branch",
    "United States"]).map DelOp.delArea

/-- The full sequence of deletion attempts issued by `delete_infrastructure`
after the confirmation prompt (lines 855-936): reservations, then floors,
then buildings, then areas. -/
def deleteInfrastructureOps (oracle : Nat → Bool) : List DelOp :=
  reservationOps ++ floorOps oracle ++ buildingOps ++ areaOps

/-- Phase rank of a deletion operation; the parent area `United States` ranks
after the leaf areas. -/
def delRank : DelOp → Nat
  | .delReservation _ _ => 0
  | .delFloor _ => 1
  | .delBuilding _ => 2
  | .delArea a => if a = "United States" then 4 else 3

/-- Recogniser for reservation deletions. -/
def isReservationDel : DelOp → Bool
  | .delReservation _ _ => true
  | _ => false

/-- Recogniser for floor deletions. -/
def isFloorDel : DelOp → Bool
  | .delFloor _ => true
  | _ => false

/-- Recogniser for building deletions. -/
def isBuildingDel : DelOp → Bool
  | .delBuilding _ => true
  | _ => false

/-- Recogniser for area deletions. -/
def isAreaDel : DelOp → Bool
  | .delArea _ => true
  | _ => false

/- ------------------------------------------------------------------ -/
/- CLI exit codes: `main` (lines 1167-1239) and the `__main__` wrapper
   (lines 1242-1253)                                                   -/
/- ------------------------------------------------------------------ -/

/-- The CLI subcommand chosen on the command line. -/
inductive CliAction
  | createAct
  | deleteAct
  | statusAct
deriving DecidableEq

/-- What the user typed at the `Type 'DELETE' to confirm:` prompt
(line 833), or the `EOFError`/`KeyboardInterrupt` raised there. -/
inductive ConfirmInput
  | text (s : String)
  | eofOrInterrupt
deriving DecidableEq

/-- The observable environment of one CLI run: whether the configuration file
loaded, whether the initial authentication succeeded, the chosen subcommand,
the confirmation input and re-authentication outcome of delete mode, and the
per-step outcome of each resource operation (`stepOk k` = the k-th
create/delete resource call did not signal failure). -/
structure RunEnv where
  configOk : Bool
  authOk : Bool
  action : CliAction
  confirm : ConfirmInput
  deleteAuthOk : Bool
  stepOk : Nat → Bool

/-- Return value of `create_infrastructure` (lines 701-819): the body issues
its 35 resource operations (4 pools, 5 areas, 4 buildings, 6 floors,
16 reservations), discards every result, and ends without a `return`
statement, so Python returns `None` whatever the step outcomes were. -/
def createInfrastructureRet (stepOk : Nat → Bool) : Option Nat :=
  none

/-- Return value of `delete_infrastructure` (lines 822-962): `1` when the
confirmation input is not exactly `DELETE` or raises, `1` when the
re-authentication of line 844 fails, and otherwise `0` — the deletion steps
run but their results are discarded. -/
def deleteInfrastructureRet (confirm : ConfirmInput) (reauthOk : Bool)
    (stepOk : Nat → Bool) : Option Nat :=
  match confirm with
  | .eofOrInterrupt => some 1
  | .text s =>
    if s ≠ "DELETE" then some 1
    else if !reauthOk then some 1
    else some 0

/-- Return value of `check_infrastructure` (lines 965-1164): always `0`. -/
def checkInfrastructureRet : Option Nat :=
  some 0

/-- Lines 1167-1239 of `main`: `1` when the configuration fails to load or
authentication raises, otherwise the return value of the chosen driver
(`None` for create mode). -/
def pyMain (env : RunEnv) : Option Nat :=
  if !env.configOk then some 1
  else if !env.authOk then some 1
  else
    match env.action with
    | .createAct => createInfrastructureRet env.stepOk
    | .deleteAct => deleteInfrastructureRet env.confirm env.deleteAuthOk env.stepOk
    | .statusAct => checkInfrastructureRet

/-- How a run of the script ends: `main` returns, or the `__main__` handler
catches a `KeyboardInterrupt` or an unexpected exception. -/
inductive RunOutcome
  | ret (env : RunEnv)
  | interrupted
  | unexpectedError

/-- Lines 1242-1253: `sys.exit(exit_code if exit_code else 0)` maps the falsy
returns `None` and `0` to exit code 0 and keeps a non-zero integer; the two
`except` arms exit with 1. -/
def processExitCode : RunOutcome → Nat
  | .ret env =>
    match pyMain env with
    | some n => if n == 0 then 0 else n
    | none => 0
  | .interrupted => 1
  | .unexpectedError => 1

/- ------------------------------------------------------------------ -/
/- TLS verification: `load_credentials_from_yaml` (lines 30-76), the
   client construction of `main` (lines 1216-1220), and the
   `requests.*` call sites                                             -/
/- ------------------------------------------------------------------ -/

/-- HTTP method of a `requests` call. -/
inductive HttpMethod
  | get
  | post
  | httpDelete
deriving DecidableEq

/-- A `requests` call as issued by the client: method, URL, and the value
passed for the `verify` keyword. -/
structure HttpRequest where
  method : HttpMethod
  url : String
  verify : Bool
deriving DecidableEq

/-- The YAML configuration document: the three required keys and the optional
`CC_INSECURE` flag (`config.get('CC_INSECURE', True)` defaults to `True`). -/
structure YamlConfig where
  ccIp : String
  ccUsername : String
  ccPassword : String
  ccInsecure : Option Bool
deriving DecidableEq

/-- The dict returned by `load_credentials_from_yaml` (lines 60-68):
`verify_ssl = not config.get('CC_INSECURE', True)`. -/
structure Credentials where
  baseUrl : String
  username : String
  password : String
  verifySsl : Bool
deriving DecidableEq

/-- Lines 60-68 of `load_credentials_from_yaml` on a parsed document that has
the required keys. -/
def loadCredentialsFromYaml (c : YamlConfig) : Credentials :=
  { baseUrl := "https://" ++ c.ccIp
    username := c.ccUsername
    password := c.ccPassword
    verifySsl := !(c.ccInsecure.getD true) }

/-- The state `main` hands to `CatalystCenterAPI.__init__` (lines 1216-1220):
only `base_url`, `username` and `password` are read; `verify_ssl` is not. -/
structure Client where
  baseUrl : String
  username : String
  password : String
deriving DecidableEq

/-- Lines 1216-1220: construction of the API client from the loaded
configuration. -/
def clientOfCredentials (c : Credentials) : Client :=
  { baseUrl := c.baseUrl, username := c.username, password := c.password }

/-- Line 187-192: the authentication POST (`verify=False`). -/
def authRequest (cl : Client) : HttpRequest :=
  ⟨.post, cl.baseUrl ++ "/dna/system/api/v1/auth/token", false⟩

/-- Line 108: one poll of the task-status endpoint (`verify=False`). -/
def taskStatusRequest (url : String) : HttpRequest :=
  ⟨.get, url, false⟩

/-- Lines 201-202 and 211-212: the site listing GET (`verify=False`). -/
def siteListRequest (cl : Client) : HttpRequest :=
  ⟨.get, cl.baseUrl ++ "/dna/intent/api/v1/site", false⟩

/-- Lines 230-231: the global-pool listing GET (`verify=False`). -/
def poolListRequest (cl : Client) : HttpRequest :=
  ⟨.get, cl.baseUrl ++ "/dna/intent/api/v1/global-pool", false⟩

/-- Lines 248-249 and 617-618: the reservation listing GET (`verify=False`). -/
def reservationListRequest (cl : Client) (siteId : String) : HttpRequest :=
  ⟨.get, cl.baseUrl ++ "/dna/intent/api/v1/reserve-ip-subpool?siteId=" ++ siteId, false⟩

/-- Line 285: the pool creation POST (`verify=False`). -/
def poolCreateRequest (cl : Client) : HttpRequest :=
  ⟨.post, cl.baseUrl ++ "/dna/intent/api/v1/global-pool", false⟩

/-- Lines 357, 401, 447: the site creation POST (`verify=False`). -/
def siteCreateRequest (cl : Client) : HttpRequest :=
  ⟨.post, cl.baseUrl ++ "/dna/intent/api/v1/site", false⟩

/-- Line 509: the reservation creation POST (`verify=False`). -/
def reserveCreateRequest (cl : Client) (siteId : String) : HttpRequest :=
  ⟨.post, cl.baseUrl ++ "/dna/intent/api/v1/reserve-ip-subpool/" ++ siteId, false⟩

/-- Line 564: the site deletion DELETE (`verify=False`). -/
def siteDeleteRequest (cl : Client) (siteId : String) : HttpRequest :=
  ⟨.httpDelete, cl.baseUrl ++ "/dna/intent/api/v1/site/" ++ siteId, false⟩

/-- Line 638: the reservation deletion DELETE (`verify=False`). -/
def reservationDeleteRequest (cl : Client) (reservationId : String) : HttpRequest :=
  ⟨.httpDelete, cl.baseUrl ++ "/dna/intent/api/v1/reserve-ip-subpool/" ++ reservationId, false⟩

/-- Line 676: the global-pool deletion DELETE (`verify=False`). -/
def poolDeleteRequest (cl : Client) (poolId : String) : HttpRequest :=
  ⟨.httpDelete, cl.baseUrl ++ "/dna/intent/api/v1/global-pool/" ++ poolId, false⟩

/-- The `US_CORP` pool as the controller would list it once created. -/
def poolUsCorp : Pool := ⟨"US_CORP", "10.201.0.0/16"⟩

/-- Environment of a first `create_ip_pool` call: no pool listed yet, the POST
response carries an `executionId`, the task succeeds, and the pool is listed
at the verification lookup. -/
def envFirstCreate : PoolEnv :=
  { pools := [], createResp := ⟨some "exec-1", none⟩, taskOk := true,
    statusOk := true, poolsAfter := [poolUsCorp] }

/-- Environment of a second `create_ip_pool` call with the same name: the
server now lists the pool. -/
def envSecondCreate : PoolEnv :=
  { pools := [poolUsCorp], createResp := ⟨some "exec-2", none⟩, taskOk := true,
    statusOk := true, poolsAfter := [poolUsCorp] }

/-- Two floors named `FLOOR_1` under different buildings, as the controller
lists them. -/
def floorSunset : Site :=
  ⟨"FLOOR_1", "Global/United States/Golden Hills Campus/Sunset Tower/FLOOR_1"⟩

/-- The homonymous floor under the other building. -/
def floorWindy : Site :=
  ⟨"FLOOR_1", "Global/United States/Lakefront Tower/Windy City Plaza/FLOOR_1"⟩

/-- A site list holding both homonymous floors (the `FLOOR_1` under
`Windy City Plaza` listed first, so a parent-blind first-match lookup would
return the wrong one). -/
def twoFloorSites : List Site := [floorWindy, floorSunset]

/-- A floor-phase oracle under which every `delete_site` call returns a
result, so no inner loop breaks early. -/
def oracleAllTrue : Nat → Bool := fun _ => true

/-- A run environment for create mode in which every resource operation
fails: configuration and authentication succeed, the subcommand is `create`,
and `stepOk` reports failure for every step. -/
def envCreateAllFail : RunEnv :=
  { configOk := true, authOk := true, action := .createAct,
    confirm := .text "", deleteAuthOk := true, stepOk := fun _ => false }

/-- A run environment in which the configuration file fails to load. -/
def envBadConfig : RunEnv :=
  { configOk := false, authOk := true, action := .createAct,
    confirm := .text "", deleteAuthOk := true, stepOk := fun _ => true }

/-- A run environment for delete mode in which the user declines the
confirmation prompt. -/
def envDeleteDeclined : RunEnv :=
  { configOk := true, authOk := true, action := .deleteAct,
    confirm := .text "no", deleteAuthOk := true, stepOk := fun _ => true }

/-- A YAML configuration with `CC_INSECURE: true`. -/
def cfgInsecureTrue : YamlConfig :=
  ⟨"198.51.100.10", "admin", "secret", some true⟩

/-- The same YAML configuration except `CC_INSECURE: false`. -/
def cfgInsecureFalse : YamlConfig :=
  ⟨"198.51.100.10", "admin", "secret", some false⟩

/-- Recogniser for creation POSTs in a `create_ip_pool` request trace. -/
def isPostCreate : ReqKind → Bool
  | .postCreate _ _ => true
  | _ => false

/-- Recogniser for post-creation verification lookups in a `create_ip_pool`
request trace. -/
def isConfirmCheck : ReqKind → Bool
  | .confirmCheck => true
  | _ => false

/-- A response stream on which no poll ever observes a terminal state: every
request comes back with a transient 500. -/
def respAllTransient : Nat → PollResponse := fun _ => PollResponse.otherStatus 500

/-- A response stream whose every poll returns 200 with top-level status
`SUCCESS` but a non-empty `bapiError`. -/
def respSuccessWithError : Nat → PollResponse :=
  fun _ => PollResponse.ok
    { status := "SUCCESS", bapiError := some "NCIP1234: pool overlap",
      bapiSyncResponseJson := .absent, isError := false, endTimePresent := false }

/-- A task response with no top-level `status` field, a nested sync-response
whose `status` is the string `"false"`, and an `endTime`: the fall-through
path of `wait_for_task` treats it as a completed successful task. -/
def tdSyncFalseNoStatus : TaskData :=
  { status := "", bapiError := none,
    bapiSyncResponseJson := .dict (.jstr "false"), isError := false,
    endTimePresent := true }

/-- A response stream whose every poll returns 200 with `tdSyncFalseNoStatus`. -/
def respSyncFalseNoStatus : Nat → PollResponse :=
  fun _ => PollResponse.ok tdSyncFalseNoStatus

/-- A response stream whose every poll returns 200 with top-level status
`SUCCESS` and a nested sync-response status of boolean `false`. -/
def respSuccessSyncFalse : Nat → PollResponse :=
  fun _ => PollResponse.ok
    { status := "SUCCESS", bapiError := none,
      bapiSyncResponseJson := .dict (.jbool false), isError := false,
      endTimePresent := false }

/- ------------------------------------------------------------------ -/
/- Theorems                                                            -/
/- ------------------------------------------------------------------ -/

/-- Helper: when every poll is non-terminal, the loop runs to the timeout and
returns `true`, having performed one poll per started interval. -/
theorem waitFrom_all_none (resp : Nat → PollResponse)
    (h : ∀ j, evalPoll (resp j) = none) :
    ∀ d timeout elapsed k, timeout - elapsed = d →
      waitFrom resp timeout elapsed k = (true, k + (d + checkInterval - 1) / checkInterval) := by
  intro d
  induction d using Nat.strong_induction_on with
  | _ d ih =>
    intro timeout elapsed k hd
    rw [waitFrom]
    by_cases hlt : elapsed < timeout
    · simp only [hlt, if_true, h k]
      have hd10 : timeout - (elapsed + checkInterval) = d - checkInterval := by
        simp only [checkInterval] at *; omega
      have hlt' : d - checkInterval < d := by
        simp only [checkInterval]; omega
      rw [ih (d - checkInterval) hlt' timeout (elapsed + checkInterval) (k + 1) hd10]
      have heq : k + 1 + (d - checkInterval + checkInterval - 1) / checkInterval
           = k + (d + checkInterval - 1) / checkInterval := by
        simp only [checkInterval]; omega
      rw [heq]
    · simp only [hlt, if_false]
      have hz : d = 0 := by omega
      subst hz
      simp [checkInterval]

/-- C1: if no poll observes a terminal task state before the timeout elapses,
`wait_for_task` returns `true` (success), and — with each HTTP request taking
negligible time against the 10-second interval — it performs exactly
`timeout / interval` polls before returning (60 for the default timeout of
600 seconds, obtained at `timeout = 600`). -/
theorem wait_for_task_timeout_assumes_success (resp : Nat → PollResponse) (timeout : Nat)
    (h : ∀ j, evalPoll (resp j) = none) (hdvd : checkInterval ∣ timeout) :
    waitForTask resp timeout = (true, timeout / checkInterval) := by
  rw [waitForTask, waitFrom_all_none resp h timeout timeout 0 0 rfl]
  congr 1
  obtain ⟨c, rfl⟩ := hdvd
  simp only [checkInterval]
  omega

/-- Witness for C1: a stream of transient 500 responses satisfies the
hypotheses at the default timeout 600, and the poller returns success after
exactly 60 polls. -/
theorem wait_for_task_timeout_assumes_success_witness :
    (∀ j, evalPoll (respAllTransient j) = none) ∧ checkInterval ∣ 600 ∧
    waitForTask respAllTransient 600 = (true, 60) := by
  refine ⟨fun j => rfl, by decide, ?_⟩
  rw [wait_for_task_timeout_assumes_success respAllTransient 600 (fun j => rfl) (by decide)]
  rfl

/-- C2: a 200-status task response whose top-level `status` is `SUCCESS` but
which carries a non-empty `bapiError` makes `wait_for_task` return `false`
at that poll: the embedded error overrides the optimistic top-level status. -/
theorem wait_for_task_success_with_bapi_error_fails (resp : Nat → PollResponse)
    (td : TaskData) (timeout : Nat) (h0 : resp 0 = PollResponse.ok td)
    (hs : td.status = "SUCCESS") (he : optStrTruthy td.bapiError = true)
    (ht : 0 < timeout) :
    waitForTask resp timeout = (false, 1) := by
  rw [waitForTask, waitFrom]
  simp [ht, h0, evalPoll, evalOk, hs, he]

/-- Witness for C2: a concrete `SUCCESS`-plus-`bapiError` response stream at
timeout 600 makes the poller report failure on the first poll. -/
theorem wait_for_task_success_with_bapi_error_fails_witness :
    respSuccessWithError 0 = PollResponse.ok
      { status := "SUCCESS", bapiError := some "NCIP1234: pool overlap",
        bapiSyncResponseJson := .absent, isError := false, endTimePresent := false } ∧
    waitForTask respSuccessWithError 600 = (false, 1) :=
  ⟨rfl, wait_for_task_success_with_bapi_error_fails respSuccessWithError _ 600 rfl rfl rfl
    (by decide)⟩

/-- C3 counterexample: a 200-status task response whose nested sync-response
status is the string `"false"` but whose outer `status` field is absent
(read as `''`) and which carries an `endTime` makes `wait_for_task` return
`true`, not failure: the nested sync-response check is only reached when the
outer status equals `SUCCESS`, so the claim as stated ("regardless of the
outer status") fails on this input. -/
theorem wait_for_task_sync_false_nonsuccess_counterexample :
    syncStatusIsFalse tdSyncFalseNoStatus.bapiSyncResponseJson = true ∧
    tdSyncFalseNoStatus.status ≠ "SUCCESS" ∧
    waitForTask respSyncFalseNoStatus 600 = (true, 1) := by
  refine ⟨rfl, by decide, ?_⟩
  rw [waitForTask, waitFrom]
  decide

/-- C3 amended: for every 200-status task response whose outer top-level
`status` equals `SUCCESS` and whose nested sync-response status field is the
string `"false"` or the boolean `false`, `wait_for_task` reports failure at
that poll (whether or not a `bapiError` is also present). -/
theorem wait_for_task_success_sync_false_fails (resp : Nat → PollResponse)
    (td : TaskData) (timeout : Nat) (h0 : resp 0 = PollResponse.ok td)
    (hs : td.status = "SUCCESS") (hsync : syncStatusIsFalse td.bapiSyncResponseJson = true)
    (ht : 0 < timeout) :
    waitForTask resp timeout = (false, 1) := by
  rw [waitForTask, waitFrom]
  by_cases he : optStrTruthy td.bapiError = true
  · simp [ht, h0, evalPoll, evalOk, hs, he]
  · simp only [Bool.not_eq_true] at he
    simp [ht, h0, evalPoll, evalOk, hs, he, hsync]

/-- Witness for C3's amended theorem: a concrete `SUCCESS` response with a
boolean-`false` nested sync status makes the poller report failure on the
first poll. -/
theorem wait_for_task_success_sync_false_fails_witness :
    (respSuccessSyncFalse 0 = PollResponse.ok
      { status := "SUCCESS", bapiError := none,
        bapiSyncResponseJson := .dict (.jbool false), isError := false,
        endTimePresent := false }) ∧
    waitForTask respSuccessSyncFalse 600 = (false, 1) :=
  ⟨rfl, wait_for_task_success_sync_false_fails respSuccessSyncFalse _ 600 rfl rfl rfl
    (by decide)⟩

/-- C7: creating pool `US_CORP` with CIDR `10.201.0.0/16` builds a payload
with `addressSpace.subnet = "10.201.0.0"` and `addressSpace.prefixLength = 16`,
and reserving `ST_CORP` with subnet `10.201.2.0` and prefix length 24 builds a
payload whose `ipv4GateWay` is `10.201.2.1` (first three octet groups of the
subnet with `.1` appended). -/
theorem us_corp_pool_payload_and_st_corp_gateway :
    buildPoolPayload "US_CORP" "10.201.0.0/16" =
      some { name := "US_CORP", poolType := "Generic", subnet := "10.201.0.0",
             prefixLength := 16 } ∧
    buildReservePayload "ST_CORP" "10.201.0.0/16" "10.201.2.0" 24 =
      { name := "ST_CORP", rtype := "Generic", ipv4GlobalPool := "10.201.0.0/16",
        ipv4Prefix := true, ipv4PrefixLength := 24, ipv4Subnet := "10.201.2.0",
        ipv4GateWay := "10.201.2.1" } := by
  constructor <;> decide

/-- C4: pool creation is idempotent by query.  If a first `create_ip_pool`
call finds no existing pool, its POST response carries an `executionId`, the
task succeeds and the pool materialises, then the call issues the POST
followed by one verification lookup and returns the verified pool; a second
call with the same name, against a server state that now lists the pool,
performs only the existence lookup — no POST and no verification lookup — and
returns the existing pool.  Across the two calls exactly one creation POST
and one verification lookup occur. -/
theorem create_ip_pool_idempotent_by_query (env1 env2 : PoolEnv) (name cidr eid : String)
    (p q : Pool)
    (h1 : getGlobalPoolByName env1.pools name = none)
    (h2 : env1.createResp.executionId = some eid)
    (h3 : env1.taskOk = true)
    (h4 : getGlobalPoolByName env1.poolsAfter name = some p)
    (h5 : getGlobalPoolByName env2.pools name = some q) :
    createIpPool env1 name cidr =
      (.pool p, [.existsCheck, .postCreate name cidr, .taskWait, .confirmCheck]) ∧
    createIpPool env2 name cidr = (.pool q, [.existsCheck]) ∧
    ((createIpPool env1 name cidr).2 ++ (createIpPool env2 name cidr).2).countP
        (fun r => isPostCreate r) = 1 ∧
    ((createIpPool env1 name cidr).2 ++ (createIpPool env2 name cidr).2).countP
        (fun r => isConfirmCheck r) = 1 := by
  have e1 : createIpPool env1 name cidr =
      (.pool p, [.existsCheck, .postCreate name cidr, .taskWait, .confirmCheck]) := by
    simp [createIpPool, h1, h2, h3, h4]
  have e2 : createIpPool env2 name cidr = (.pool q, [.existsCheck]) := by
    simp [createIpPool, h5]
  refine ⟨e1, e2, ?_, ?_⟩ <;>
    simp [e1, e2, List.countP_cons, isPostCreate, isConfirmCheck]

/-- Witness for C4: concrete first/second call environments for `US_CORP`
showing the second call performs only the lookup, and exactly one creation
POST and one verification lookup occur across the two calls. -/
theorem create_ip_pool_idempotent_by_query_witness :
    getGlobalPoolByName envFirstCreate.pools "US_CORP" = none ∧
    createIpPool envSecondCreate "US_CORP" "10.201.0.0/16" =
      (.pool poolUsCorp, [.existsCheck]) ∧
    ((createIpPool envFirstCreate "US_CORP" "10.201.0.0/16").2 ++
      (createIpPool envSecondCreate "US_CORP" "10.201.0.0/16").2).countP
        (fun r => isPostCreate r) = 1 ∧
    ((createIpPool envFirstCreate "US_CORP" "10.201.0.0/16").2 ++
      (createIpPool envSecondCreate "US_CORP" "10.201.0.0/16").2).countP
        (fun r => isConfirmCheck r) = 1 := by
  have h := create_ip_pool_idempotent_by_query envFirstCreate envSecondCreate
    "US_CORP" "10.201.0.0/16" "exec-1" poolUsCorp poolUsCorp
    (by decide) rfl rfl (by decide) (by decide)
  exact ⟨by decide, h.2.1, h.2.2.1, h.2.2.2⟩

/-- C5: floor lookup disambiguates by parent.  In a site list holding two
floors with the same name under different direct parents, the parent-aware
lookup for the name under one parent never returns the floor lying under the
other parent. -/
theorem floor_lookup_disambiguates_by_parent (sites : List Site) (n p p' : String)
    (f1 f2 : Site) (hne : p ≠ p')
    (hf1 : f1 ∈ sites) (hf1n : f1.name = n)
    (hf1p : directParent f1.siteNameHierarchy = some p)
    (hf2 : f2 ∈ sites) (hf2n : f2.name = n)
    (hf2p : directParent f2.siteNameHierarchy = some p') :
    getSiteByNameAndParent sites n p ≠ some f2 := by
  intro h
  have hp := List.find?_some h
  simp only [Bool.and_eq_true, beq_iff_eq] at hp
  rw [hf2p] at hp
  exact hne (Option.some_injective _ hp.2).symm

/-- Witness for C5: with `FLOOR_1` listed under both `Windy City Plaza` and
`Sunset Tower` (the wrong one listed first), the lookup under `Sunset Tower`
does not return the `Windy City Plaza` floor. -/
theorem floor_lookup_disambiguates_by_parent_witness :
    floorWindy ∈ twoFloorSites ∧
    directParent floorWindy.siteNameHierarchy = some "Windy City Plaza" ∧
    getSiteByNameAndParent twoFloorSites "FLOOR_1" "Sunset Tower" ≠ some floorWindy := by
  refine ⟨by decide, by decide, ?_⟩
  exact floor_lookup_disambiguates_by_parent twoFloorSites "FLOOR_1"
    "Sunset Tower" "Windy City Plaza" floorSunset floorWindy
    (by decide) (by decide) (by decide) (by decide) (by decide) (by decide) (by decide)

/-- Helper: if every hierarchy segment of every listed site is free of `/`
while `parent_name` contains one, the `parts[-2] == parent_name` test of
`get_site_by_name_and_parent` can never hold, so the lookup returns `None`. -/
theorem getSiteByNameAndParent_parent_path_none (sites : List Site)
    (siteName parentName : String)
    (hseg : ∀ s ∈ sites, ∀ seg ∈ pySplit s.siteNameHierarchy '/',
      pyContains seg '/' = false)
    (hpar : pyContains parentName '/' = true) :
    getSiteByNameAndParent sites siteName parentName = none := by
  rw [getSiteByNameAndParent, List.find?_eq_none]
  intro s hs hcontra
  simp only [Bool.and_eq_true, beq_iff_eq] at hcontra
  obtain ⟨-, hdp⟩ := hcontra
  rw [directParent] at hdp
  set parts := pySplit s.siteNameHierarchy '/' with hparts
  by_cases hlen : 2 ≤ parts.length
  · rw [if_pos hlen] at hdp
    have hmem : parentName ∈ parts := List.get?_mem hdp
    have := hseg s hs parentName (hparts ▸ hmem)
    rw [hpar] at this
    exact Bool.true_eq_false.mp this
  · rw [if_neg hlen] at hdp
    exact Option.noConfusion hdp

/-- C10: with hierarchy paths whose individual segments contain no `/`, any
lookup whose `parent_name` itself contains a `/` returns `None`; since
`create_floor` always passes the full hierarchy path as `parent_name`
(lines 770-775 pass paths such as
`Global/United States/Golden Hills Campus/Sunset Tower`), its parent-aware
lookup never finds an existing floor, and the skip-if-exists branch is never
taken. -/
theorem create_floor_skip_branch_unreachable (sites : List Site)
    (hseg : ∀ s ∈ sites, ∀ seg ∈ pySplit s.siteNameHierarchy '/',
      pyContains seg '/' = false) :
    (∀ siteName parentName, pyContains parentName '/' = true →
      getSiteByNameAndParent sites siteName parentName = none) ∧
    (∀ c ∈ floorCalls, createFloorAction sites c.1 c.2.1 = .createRequest) := by
  have key : ∀ siteName parentName, pyContains parentName '/' = true →
      getSiteByNameAndParent sites siteName parentName = none :=
    fun sn pn hpn => getSiteByNameAndParent_parent_path_none sites sn pn hseg hpn
  refine ⟨key, ?_⟩
  intro c hc
  have hslash : pyContains c.2.1 '/' = true := by
    fin_cases hc <;> decide
  rw [createFloorAction, key c.1 c.2.1 hslash]

/-- Witness for C10: the two-floor site list satisfies the segment
hypothesis, the first scripted `create_floor` parent path contains `/`, the
lookup with that path returns `None`, and the first scripted call takes the
create branch. -/
theorem create_floor_skip_branch_unreachable_witness :
    pyContains "Global/United States/Golden Hills Campus/Sunset Tower" '/' = true ∧
    getSiteByNameAndParent twoFloorSites "FLOOR_1"
      "Global/United States/Golden Hills Campus/Sunset Tower" = none ∧
    createFloorAction twoFloorSites "FLOOR_1"
      "Global/United States/Golden Hills Campus/Sunset Tower" = .createRequest := by
  have h := create_floor_skip_branch_unreachable twoFloorSites (by decide)
  refine ⟨by decide, h.1 "FLOOR_1" _ (by decide), ?_⟩
  exact h.2 ("FLOOR_1", "Global/United States/Golden Hills Campus/Sunset Tower", 1)
    (by decide)

/-- C8 counterexample: a create-mode run in which every resource operation
fails still exits with code 0, because `create_infrastructure` discards all
step results and returns `None`, which the `__main__` wrapper maps to exit
code 0.  The claim that such a run exits with code 1 is therefore false. -/
theorem exit_code_zero_on_failed_create_step_counterexample :
    envCreateAllFail.action = .createAct ∧
    envCreateAllFail.stepOk 0 = false ∧
    processExitCode (.ret envCreateAllFail) = 0 :=
  ⟨rfl, rfl, rfl⟩

/-- C8 amended: the exit code is 1 exactly on startup failures (configuration
load or initial authentication), on declining or interrupting the delete
confirmation, on delete-mode re-authentication failure, and on interruption
or unexpected exception; every run that gets past startup otherwise exits 0 —
in particular create and status runs exit 0 regardless of resource-operation
failures, which are only logged. -/
theorem exit_code_characterization (env : RunEnv) :
    (env.configOk = false → processExitCode (.ret env) = 1) ∧
    (env.authOk = false → processExitCode (.ret env) = 1) ∧
    (env.configOk = true → env.authOk = true → env.action = .createAct →
      processExitCode (.ret env) = 0) ∧
    (env.configOk = true → env.authOk = true → env.action = .statusAct →
      processExitCode (.ret env) = 0) ∧
    (env.configOk = true → env.authOk = true → env.action = .deleteAct →
      env.confirm = .eofOrInterrupt → processExitCode (.ret env) = 1) ∧
    (∀ s, env.configOk = true → env.authOk = true → env.action = .deleteAct →
      env.confirm = .text s → s ≠ "DELETE" → processExitCode (.ret env) = 1) ∧
    (∀ s, env.configOk = true → env.authOk = true → env.action = .deleteAct →
      env.confirm = .text s → s = "DELETE" → env.deleteAuthOk = false →
      processExitCode (.ret env) = 1) ∧
    (∀ s, env.configOk = true → env.authOk = true → env.action = .deleteAct →
      env.confirm = .text s → s = "DELETE" → env.deleteAuthOk = true →
      processExitCode (.ret env) = 0) ∧
    processExitCode .interrupted = 1 ∧
    processExitCode .unexpectedError = 1 := by
  refine ⟨?_, ?_, ?_, ?_, ?_, ?_, ?_, ?_, rfl, rfl⟩
  · intro h
    simp [processExitCode, pyMain, h]
  · intro h
    by_cases hc : env.configOk <;>
      simp [processExitCode, pyMain, h, hc]
  · intro hc ha hact
    simp [processExitCode, pyMain, hc, ha, hact, createInfrastructureRet]
  · intro hc ha hact
    simp [processExitCode, pyMain, hc, ha, hact, checkInfrastructureRet]
  · intro hc ha hact hconf
    simp [processExitCode, pyMain, hc, ha, hact, hconf, deleteInfrastructureRet]
  · intro s hc ha hact hconf hs
    simp [processExitCode, pyMain, hc, ha, hact, hconf, deleteInfrastructureRet, hs]
  · intro s hc ha hact hconf hs hd
    simp [processExitCode, pyMain, hc, ha, hact, hconf, deleteInfrastructureRet, hs, hd]
  · intro s hc ha hact hconf hs hd
    simp [processExitCode, pyMain, hc, ha, hact, hconf, deleteInfrastructureRet, hs, hd]

/-- Witness for C8's amended theorem: a failed configuration load exits 1, a
create run with failing steps exits 0, a declined delete confirmation exits
1, and an interrupted run exits 1. -/
theorem exit_code_characterization_witness :
    processExitCode (.ret envBadConfig) = 1 ∧
    processExitCode (.ret envCreateAllFail) = 0 ∧
    processExitCode (.ret envDeleteDeclined) = 1 ∧
    processExitCode .interrupted = 1 := by
  refine ⟨(exit_code_characterization envBadConfig).1 rfl,
          (exit_code_characterization envCreateAllFail).2.2.1 rfl rfl rfl,
          (exit_code_characterization envDeleteDeclined).2.2.2.2.2.1 "no" rfl rfl rfl rfl
            (by decide),
          (exit_code_characterization envBadConfig).2.2.2.2.2.2.2.2.1⟩

/-- C9: every embedded `requests` call site passes `verify=False`, and the
client state that all request URLs and credentials derive from is computed
without reading `verify_ssl`, so two configurations differing only in
`CC_INSECURE` yield the same client and hence identical requests. -/
theorem requests_insecure_and_config_independent :
    (∀ cl, (authRequest cl).verify = false) ∧
    (∀ url, (taskStatusRequest url).verify = false) ∧
    (∀ cl, (siteListRequest cl).verify = false) ∧
    (∀ cl, (poolListRequest cl).verify = false) ∧
    (∀ cl sid, (reservationListRequest cl sid).verify = false) ∧
    (∀ cl, (poolCreateRequest cl).verify = false) ∧
    (∀ cl, (siteCreateRequest cl).verify = false) ∧
    (∀ cl sid, (reserveCreateRequest cl sid).verify = false) ∧
    (∀ cl sid, (siteDeleteRequest cl sid).verify = false) ∧
    (∀ cl rid, (reservationDeleteRequest cl rid).verify = false) ∧
    (∀ cl pid, (poolDeleteRequest cl pid).verify = false) ∧
    (∀ c1 c2 : YamlConfig, c1.ccIp = c2.ccIp → c1.ccUsername = c2.ccUsername →
      c1.ccPassword = c2.ccPassword →
      clientOfCredentials (loadCredentialsFromYaml c1) =
        clientOfCredentials (loadCredentialsFromYaml c2)) := by
  refine ⟨fun _ => rfl, fun _ => rfl, fun _ => rfl, fun _ => rfl, fun _ _ => rfl,
    fun _ => rfl, fun _ => rfl, fun _ _ => rfl, fun _ _ => rfl, fun _ _ => rfl,
    fun _ _ => rfl, ?_⟩
  intro c1 c2 h1 h2 h3
  simp [clientOfCredentials, loadCredentialsFromYaml, h1, h2, h3]

/-- Witness for C9: two concrete configurations that differ only in
`CC_INSECURE` (so their `verify_ssl` values differ) yield equal clients, and
the authentication request built from that client has `verify = false`. -/
theorem requests_insecure_and_config_independent_witness :
    cfgInsecureTrue.ccInsecure ≠ cfgInsecureFalse.ccInsecure ∧
    (loadCredentialsFromYaml cfgInsecureTrue).verifySsl ≠
      (loadCredentialsFromYaml cfgInsecureFalse).verifySsl ∧
    clientOfCredentials (loadCredentialsFromYaml cfgInsecureTrue) =
      clientOfCredentials (loadCredentialsFromYaml cfgInsecureFalse) ∧
    (authRequest (clientOfCredentials (loadCredentialsFromYaml cfgInsecureTrue))).verify
      = false := by
  refine ⟨by decide, by decide, ?_, ?_⟩
  · exact requests_insecure_and_config_independent.2.2.2.2.2.2.2.2.2.2.2
      cfgInsecureTrue cfgInsecureFalse rfl rfl rfl
  · exact requests_insecure_and_config_independent.1 _

/-- Helper: every operation emitted by the inner floor loop is a floor
deletion. -/
theorem floorInner_ops (oracle : Nat → Bool) :
    ∀ fs k, ∀ op ∈ (floorInner oracle fs k).1, ∃ f, op = DelOp.delFloor f := by
  intro fs
  induction fs with
  | nil =>
    intro k op h
    simp [floorInner] at h
  | cons f rest ih =>
    intro k op h
    rw [floorInner] at h
    cases ho : oracle k
    · rw [ho] at h
      simp at h
      exact ⟨f, h⟩
    · rw [ho] at h
      simp at h
      rcases h with h | h
      · exact ⟨f, h⟩
      · exact ih (k + 1) op h

/-- Helper: every operation emitted by the outer floor loop is a floor
deletion. -/
theorem floorOuter_ops (oracle : Nat → Bool) :
    ∀ n k, ∀ op ∈ floorOuter oracle n k, ∃ f, op = DelOp.delFloor f := by
  intro n
  induction n with
  | zero =>
    intro k op h
    simp [floorOuter] at h
  | succ m ih =>
    intro k op h
    rw [floorOuter, List.mem_append] at h
    rcases h with h | h
    · exact floorInner_ops oracle floorNames k op h
    · exact ih _ op h

/-- Helper: the teardown operation sequence is sorted by phase rank, for any
outcome of the floor-deletion loop. -/
theorem deleteInfrastructureOps_pairwise (oracle : Nat → Bool) :
    (deleteInfrastructureOps oracle).Pairwise (fun a b => delRank a ≤ delRank b) := by
  have hfloor : ∀ op ∈ floorOps oracle, delRank op = 1 := by
    intro op h
    obtain ⟨f, rfl⟩ := floorOuter_ops oracle 6 0 op h
    rfl
  rw [deleteInfrastructureOps]
  rw [List.pairwise_append]
  refine ⟨?_, ?_, ?_⟩
  · rw [List.pairwise_append]
    refine ⟨?_, ?_, ?_⟩
    · rw [List.pairwise_append]
      refine ⟨by decide, ?_, ?_⟩
      · exact List.pairwise_of_forall_mem_list fun a ha b hb => by
          rw [hfloor a ha, hfloor b hb]
      · intro a ha b hb
        have : delRank a = 0 := by
          revert a
          decide
        rw [this]
        exact Nat.zero_le _
    · decide
    · intro a ha b hb
      rw [List.mem_append] at ha
      have hb2 : delRank b = 2 := by
        revert b
        decide
      rcases ha with ha | ha
      · have : delRank a = 0 := by
          revert a
          decide
        omega
      · rw [hfloor a ha, hb2]
        omega
  · decide
  · intro a ha b hb
    have hb3 : 3 ≤ delRank b := by
      revert b
      decide
    rw [List.mem_append] at ha
    rcases ha with ha | ha
    · rw [List.mem_append] at ha
      rcases ha with ha | ha
      · have : delRank a = 0 := by
          revert a
          decide
        omega
      · rw [hfloor a ha] at *
        omega
    · have : delRank a = 2 := by
        revert a
        decide
      omega

/-- Helper: in a rank-sorted operation list, an element of strictly smaller
rank sits at a strictly smaller index. -/
theorem rank_sorted_index_lt {ops : List DelOp}
    (hp : ops.Pairwise (fun a b => delRank a ≤ delRank b)) {i j : Nat} {oi oj : DelOp}
    (hi : ops.get? i = some oi) (hj : ops.get? j = some oj)
    (hlt : delRank oi < delRank oj) : i < j := by
  obtain ⟨hi', hie⟩ := List.get?_eq_some.mp hi
  obtain ⟨hj', hje⟩ := List.get?_eq_some.mp hj
  rcases Nat.lt_trichotomy i j with h | h | h
  · exact h
  · exfalso
    subst h
    rw [hie] at hje
    subst hje
    exact Nat.lt_irrefl _ hlt
  · exfalso
    have := List.pairwise_iff_get.mp hp ⟨j, hj'⟩ ⟨i, hi'⟩ h
    rw [hie, hje] at this
    omega

/-- C6: in the scripted teardown, every reservation deletion of the fixed
topology occurs in the attempted sequence, every reservation deletion
precedes every floor deletion, every floor deletion precedes every building
deletion, every building deletion precedes every area deletion, and every
leaf-area deletion precedes the deletion of the parent area
`United States` — whatever results the floor-deletion loop observes. -/
theorem delete_infrastructure_phase_ordering (oracle : Nat → Bool) :
    (∀ op ∈ reservationOps, op ∈ deleteInfrastructureOps oracle) ∧
    (∀ i j oi oj, (deleteInfrastructureOps oracle).get? i = some oi →
      (deleteInfrastructureOps oracle).get? j = some oj →
      isReservationDel oi = true → isFloorDel oj = true → i < j) ∧
    (∀ i j oi oj, (deleteInfrastructureOps oracle).get? i = some oi →
      (deleteInfrastructureOps oracle).get? j = some oj →
      isFloorDel oi = true → isBuildingDel oj = true → i < j) ∧
    (∀ i j oi oj, (deleteInfrastructureOps oracle).get? i = some oi →
      (deleteInfrastructureOps oracle).get? j = some oj →
      isBuildingDel oi = true → isAreaDel oj = true → i < j) ∧
    (∀ i j a oj, (deleteInfrastructureOps oracle).get? i = some (DelOp.delArea a) →
      a ≠ "United States" →
      (deleteInfrastructureOps oracle).get? j = some oj →
      oj = DelOp.delArea "United States" → i < j) := by
  have hp := deleteInfrastructureOps_pairwise oracle
  refine ⟨?_, ?_, ?_, ?_, ?_⟩
  · intro op h
    rw [deleteInfrastructureOps]
    simp only [List.mem_append]
    exact Or.inl (Or.inl (Or.inl h))
  · intro i j oi oj hi hj hri hrj
    refine rank_sorted_index_lt hp hi hj ?_
    cases oi <;> cases oj <;> simp_all [isReservationDel, isFloorDel, delRank]
  · intro i j oi oj hi hj hri hrj
    refine rank_sorted_index_lt hp hi hj ?_
    cases oi <;> cases oj <;> simp_all [isFloorDel, isBuildingDel, delRank]
  · intro i j oi oj hi hj hri hrj
    refine rank_sorted_index_lt hp hi hj ?_
    cases oi <;> cases oj <;> simp_all [isBuildingDel, isAreaDel, delRank]
    split <;> omega
  · intro i j a oj hi ha hj hoj
    subst hoj
    refine rank_sorted_index_lt hp hi hj ?_
    simp [delRank, ha]

/-- Witness for C6: with an oracle under which every floor `delete_site` call
returns a result, the first reservation deletion (index 0) is in the
sequence, index 0 holds a reservation deletion, index 16 holds a floor
deletion, and the ordering theorem places 0 before 16. -/
theorem delete_infrastructure_phase_ordering_witness :
    DelOp.delReservation "Sunset Tower" "ST_CORP" ∈ deleteInfrastructureOps oracleAllTrue ∧
    (deleteInfrastructureOps oracleAllTrue).get? 0 =
      some (DelOp.delReservation "Sunset Tower" "ST_CORP") ∧
    (deleteInfrastructureOps oracleAllTrue).get? 16 = some (DelOp.delFloor "FLOOR_1") ∧
    (0 : Nat) < 16 := by
  refine ⟨(delete_infrastructure_phase_ordering oracleAllTrue).1
      (DelOp.delReservation "Sunset Tower" "ST_CORP") (by decide),
    by decide, by decide,
    (delete_infrastructure_phase_ordering oracleAllTrue).2.1 0 16
      (DelOp.delReservation "Sunset Tower" "ST_CORP") (DelOp.delFloor "FLOOR_1")
      (by decide) (by decide) rfl rfl⟩
